import Mathlib

/-!
Verification of the derivative-resolution and output-caching orchestration of
the qsiprep_analyses repository, as a shallow embedding in Lean 4.

Python dictionaries are embedded as ordered association lists with Python
semantics (assignment replaces the value at the first occurrence of the key,
otherwise appends); fallible code is embedded in the `Except` monad;
filesystem state and external collaborator invocations are threaded
explicitly through the orchestration functions.
-/

namespace QPA

/-- Ordered string-keyed dictionary, embedding Python `dict`. -/
abbrev Dict (α : Type) := List (String × α)

/-- Embeds Python `d.get(k)` / `d[k]`: the value at the first occurrence of `k`. -/
def dictGet {α : Type} : Dict α → String → Option α
  | [], _ => none
  | p :: t, k => if p.1 = k then some p.2 else dictGet t k

/-- Embeds Python `d[k] = v`: replace the value at the first occurrence of `k`,
otherwise append the pair at the end (insertion order preserved). -/
def dictSet {α : Type} : Dict α → String → α → Dict α
  | [], k, v => [(k, v)]
  | p :: t, k, v => if p.1 = k then (k, v) :: t else p :: dictSet t k v

/-- Embeds Python `d.keys()`. -/
def dictKeys {α : Type} (d : Dict α) : List String := d.map Prod.fst

/-- Embeds Python `d.values()`. -/
def dictValues {α : Type} (d : Dict α) : List α := d.map Prod.snd

/-- Overlay `replacements` onto `original`, one Python dict assignment at a
time, left to right (the loop bodies of `apply_bids_filters` in
utils/utils.py and of `build_relative_path` in data/bids.py). -/
def dictMerge {α : Type} (original replacements : Dict α) : Dict α :=
  replacements.foldl (fun acc p => dictSet acc p.1 p.2) original

/-- Embedding of `apply_bids_filters` (utils/utils.py): copy `original`, then,
when `replacements` is a dict, perform one dict assignment per replacement
pair; the copy is what makes the function pure, so the Lean embedding leaves
its `original` argument untouched by construction. -/
def apply_bids_filters {α : Type} (original : Dict α)
    (replacements : Option (Dict α)) : Dict α :=
  match replacements with
  | some r => dictMerge original r
  | none => original

/-- Embedding of the `Participant` constructor arguments from the external
analyses_utils package (only the construction-time data is relevant here). -/
structure Participant where
  label : String
  base_dir : String
  sessions_base : Option String
deriving Repr, DecidableEq

/-- Embedding of `QsiprepDerivatives` from the external analyses_utils
package, as the record of its construction arguments. -/
structure QsiprepDerivatives where
  participant : Participant
deriving Repr, DecidableEq

/-- Error values raised by the embedded code (each constructor corresponds to
one `raise` site or one failing external collaborator). -/
inductive Err
  | mutuallyExclusive (in1 in2 : String)
  | baseDirAndParticipantRequired
  | notImplemented (tensor_type : String)
  | invalidParticipant (participant_label : String)
  | typeError
  | missingInput
  | reconstructionFailure
  | fileNotFound (participant_label : String)
deriving Repr, DecidableEq

/-- Embedding of `validate_instantiation` (utils/utils.py, lines 25-51):
`participant_label` and `derivatives` are mutually exclusive; without
`derivatives`, both `base_dir` and `participant_label` are required, and a
fresh `QsiprepDerivatives` is constructed from them. An argument is
"supplied" when it is `some`. -/
def validate_instantiation (derivatives : Option QsiprepDerivatives)
    (base_dir : Option String) (sessions_base : Option String)
    (participant_label : Option String) : Except Err QsiprepDerivatives :=
  if participant_label.isSome ∧ derivatives.isSome then
    .error (.mutuallyExclusive "participant_label" "derivatives")
  else
    match derivatives with
    | none =>
      match base_dir, participant_label with
      | some b, some p => .ok ⟨⟨p, b, sessions_base⟩⟩
      | _, _ => .error .baseDirAndParticipantRequired
    | some d => .ok d

/-- A Python argument that may be a string or a list of strings. -/
abbrev StrOrList := Sum String (List String)

/-- Embedding of `QsiprepAnalysis.listify_sessions` (qsiprep_analysis.py,
lines 48-69): wrap a string into a one-element list; return a list unchanged
only when all of its members are available sessions, otherwise fall back to
the full list of available sessions. -/
def listify_sessions (available : List String) (sessions : Option StrOrList) :
    List String :=
  let sessions := match sessions with
    | some (.inl s) => some (Sum.inr [s])
    | x => x
  match sessions with
  | some (.inr l) => if l.all (fun s => available.contains s) then l else available
  | _ => available

end QPA

namespace QPA.Bids

/-- Renders one optional BIDS filename segment: present entities render as
`pre ++ value`, absent entities render as nothing. -/
def optSeg (pre : String) (v : Option String) : String :=
  match v with
  | some s => pre ++ s
  | none => ""

def P1_SUFFIXES : List String := ["dwi", "dwiref", "epiref", "mask"]

def P1_EXTENSIONS : List String := [".bval", ".bvec", ".json", ".nii.gz", ".nii"]

def P2_SUFFIXES : List String :=
  ["T1w", "T2w", "T1rho", "T1map", "T2map", "T2star", "FLAIR", "FLASH",
   "PDmap", "PD", "PDT2", "inplaneT1", "inplaneT2", "angio"]

def P2_EXTENSIONS : List String := [".nii", ".nii.gz", ".json"]

def P3_SUFFIXES : List String := ["dseg"]

def P3_EXTENSIONS : List String := [".csv", ".tsv", ".pickle", ".nii", ".nii.gz", ".json"]

/-- Embedding of the first template of `DEFAULT_PATTERNS` (data/bids.py): the
dwi pattern, applicable when a subject is present, the suffix is one of
dwi/dwiref/epiref/mask, the datatype is dwi (defaulting to dwi) and the
extension (defaulting to .nii.gz) is allowed. -/
def renderPattern1 (e : Dict String) : Option String :=
  match dictGet e "subject", dictGet e "suffix" with
  | some subj, some suf =>
    let dt := (dictGet e "datatype").getD "dwi"
    let ext := (dictGet e "extension").getD ".nii.gz"
    if suf ∈ P1_SUFFIXES ∧ dt = "dwi" ∧ ext ∈ P1_EXTENSIONS then
      some ("sub-" ++ subj ++ optSeg "/ses-" (dictGet e "session") ++ "/" ++ dt
        ++ "/sub-" ++ subj ++ optSeg "_ses-" (dictGet e "session")
        ++ optSeg "_acq-" (dictGet e "acquisition")
        ++ optSeg "_dir-" (dictGet e "direction")
        ++ optSeg "_space-" (dictGet e "space")
        ++ optSeg "_res-" (dictGet e "resolution")
        ++ optSeg "_desc-" (dictGet e "desc")
        ++ optSeg "_part-" (dictGet e "part") ++ "_" ++ suf ++ ext)
    else none
  | _, _ => none

/-- Embedding of the second template of `DEFAULT_PATTERNS` (data/bids.py):
the anatomical-image pattern. -/
def renderPattern2 (e : Dict String) : Option String :=
  match dictGet e "subject", dictGet e "suffix" with
  | some subj, some suf =>
    let dt := (dictGet e "datatype").getD "anat"
    let ext := (dictGet e "extension").getD ".nii.gz"
    if suf ∈ P2_SUFFIXES ∧ dt = "anat" ∧ ext ∈ P2_EXTENSIONS then
      some ("sub-" ++ subj ++ optSeg "/ses-" (dictGet e "session") ++ "/" ++ dt
        ++ "/sub-" ++ subj ++ optSeg "_ses-" (dictGet e "session")
        ++ optSeg "_acq-" (dictGet e "acquisition")
        ++ optSeg "_ce-" (dictGet e "ceagent")
        ++ optSeg "_rec-" (dictGet e "reconstruction")
        ++ optSeg "_space-" (dictGet e "space")
        ++ optSeg "_res-" (dictGet e "resolution")
        ++ optSeg "_part-" (dictGet e "part") ++ "_" ++ suf ++ ext)
    else none
  | _, _ => none

/-- Embedding of the third template of `DEFAULT_PATTERNS` (data/bids.py): the
discrete-segmentation (dseg) pattern, carrying label/measure/atlas segments
and the doubled res segment of the source template. -/
def renderPattern3 (e : Dict String) : Option String :=
  match dictGet e "subject", dictGet e "suffix" with
  | some subj, some suf =>
    let dt := (dictGet e "datatype").getD "anat"
    let ext := (dictGet e "extension").getD ".nii.gz"
    if suf ∈ P3_SUFFIXES ∧ (dt = "anat" ∨ dt = "dwi") ∧ ext ∈ P3_EXTENSIONS then
      some ("sub-" ++ subj ++ optSeg "/ses-" (dictGet e "session") ++ "/" ++ dt
        ++ "/sub-" ++ subj ++ optSeg "_ses-" (dictGet e "session")
        ++ optSeg "_acq-" (dictGet e "acquisition")
        ++ optSeg "_dir-" (dictGet e "direction")
        ++ optSeg "_ce-" (dictGet e "ceagent")
        ++ optSeg "_rec-" (dictGet e "reconstruction")
        ++ optSeg "_space-" (dictGet e "space")
        ++ optSeg "_res-" (dictGet e "res")
        ++ optSeg "_res-" (dictGet e "resolution")
        ++ optSeg "_desc-" (dictGet e "desc")
        ++ optSeg "_label-" (dictGet e "label")
        ++ optSeg "_meas-" (dictGet e "measure")
        ++ optSeg "_atlas-" (dictGet e "atlas") ++ "_" ++ suf ++ ext)
    else none
  | _, _ => none

/-- The entity-overlay step of `build_relative_path` (data/bids.py, lines
38-41): replacements are written over the source entities one dict
assignment at a time. -/
def combinedEntities (source_entities replacements : Dict String) : Dict String :=
  dictMerge source_entities replacements

/-- Embedding of `build_relative_path` (data/bids.py, lines 18-44): overlay
`replacements` onto the source entities, then render the first matching
naming-pattern template. The source is supplied directly as its entity
mapping; the spec's path builder contract accepts an entity mapping in place
of a path to be parsed. -/
def build_relative_path (source_entities : Dict String)
    (replacements : Dict String) : Option String :=
  let e := combinedEntities source_entities replacements
  (renderPattern1 e).orElse fun _ =>
    (renderPattern2 e).orElse fun _ => renderPattern3 e

end QPA.Bids

namespace QPA

/-- A record of the file index (the external pybids layout / analyses_utils
file collaborators): a path together with its parsed BIDS entities. Supplying
the entities with the record embeds `parse_file_entities`. -/
structure FileRec where
  path : String
  entities : Dict String
deriving Repr, DecidableEq

end QPA

namespace QPA.Parc

/-- A BIDS filter mapping: a value of `none` requires the entity to be absent
(the `"space": None` filter of the anatomical-reference query). -/
abbrev Query := QPA.Dict (Option String)

/-- A record matches a query when every filter agrees with the record's
entities (pybids layout.get semantics over the embedded file index). -/
def matchesQuery (r : FileRec) (q : Query) : Bool :=
  q.all fun p => dictGet r.entities p.1 == p.2

/-- Embedding of `self.data_grabber.layout.get(**query)`: the records of the
file index matching the query, in index order. -/
def layoutGet (layout : List FileRec) (q : Query) : List FileRec :=
  layout.filter fun r => matchesQuery r q

/-- The fixed query templates of `NativeParcellation.QUERIES`
(parcellations/parcellations.py, lines 23-51). -/
def QUERIES : QPA.Dict Query :=
  [("mni2native",
    [("from", some "MNI152NLin2009cAsym"), ("to", some "T1w"),
     ("mode", some "image"), ("suffix", some "xfm")]),
   ("native2mni",
    [("from", some "T1w"), ("to", some "MNI152NLin2009cAsym"),
     ("mode", some "image"), ("suffix", some "xfm")]),
   ("anat_reference",
    [("desc", some "preproc"), ("suffix", some "T1w"),
     ("datatype", some "anat"), ("space", none),
     ("extension", some ".nii.gz")]),
   ("dwi_reference",
    [("desc", some "preproc"), ("datatype", some "dwi"),
     ("suffix", some "dwi"), ("space", some "T1w"),
     ("extension", some ".nii.gz")]),
   ("probseg", [("suffix", some "probseg")])]

/-- The two reference types for which a `<type>_reference` query template
exists (the default argument is anat). -/
inductive RefType
  | anat
  | dwi
deriving Repr, DecidableEq

def refTypeKey : RefType → String
  | .anat => "anat_reference"
  | .dwi => "dwi_reference"

/-- Embedding of `NativeParcellation.get_reference` (parcellations.py, lines
103-135): merge the named reference query with the participant filter and any
extra filters, take the first matching record's path, or `none` when nothing
matches. Total: zero matches is a normal return value, never an error. -/
def get_reference (layout : List FileRec) (participant_label : String)
    (reference_type : RefType) (bids_filters : Option Query) : Option String :=
  let query : Query :=
    ("subject", some participant_label) :: (dictGet QUERIES (refTypeKey reference_type)).getD []
  let query := apply_bids_filters query bids_filters
  ((layoutGet layout query).head?).map FileRec.path

/-- The transform names iterated by `get_transforms`
(`NativeParcellation.TRANSFORMS`). -/
def TRANSFORMS : List String := ["mni2native", "native2mni"]

/-- Embedding of `NativeParcellation.get_transforms` (parcellations.py, lines
74-101): one first-match-or-none lookup per transform direction, collected
into a dictionary. Total: absent transforms map to `none`. -/
def get_transforms (layout : List FileRec) (participant_label : String)
    (bids_filters : Option Query) : QPA.Dict (Option String) :=
  TRANSFORMS.foldl
    (fun transforms t =>
      let query : Query :=
        ("subject", some participant_label) :: (dictGet QUERIES t).getD []
      let query := apply_bids_filters query bids_filters
      dictSet transforms t (((layoutGet layout query).head?).map FileRec.path))
    []

/-- Embedding of `NativeParcellation.get_probseg` (parcellations.py, lines
137-167): the tissue label is upper-cased into the probseg query; first
match's path or `none`. -/
def get_probseg (layout : List FileRec) (participant_label : String)
    (tissue_type : String) (bids_filters : Option Query) : Option String :=
  let query : Query :=
    ("subject", some participant_label) :: ("label", some tissue_type.toUpper)
      :: (dictGet QUERIES "probseg").getD []
  let query := apply_bids_filters query bids_filters
  ((layoutGet layout query).head?).map FileRec.path

end QPA.Parc

namespace QPA.Reg

open QPA.Bids

/-- Modelled from the spec: `QsiprepDerivatives`, `Analysis.get_derivative`
and the derivative registry come from the external analyses_utils package
(absent from src). Per the spec's Derivative Locator contract, a named query
resolves to the first matching file's record or `none`; `sessions` is the
participant's available-session list; `derivRoot` is the derivatives
directory the outputs are written under (`derivatives.path.parent`). -/
structure Env where
  participant_label : String
  sessions : List String
  getDerivative : String → String → Option FileRec
  derivRoot : String

/-- One recorded invocation of an external registration/resampling
collaborator (brain_parts parcellation manager and nilearn resampling). -/
inductive REffect
  | registerScheme (scheme participant reference : String)
      (transform : Option String) (out : String) (force : Bool)
  | cropToProbseg (scheme participant whole_brain : String)
      (probseg : Option String) (out : String) (threshold : Rat) (force : Bool)
  | resample (source reference target interp : String)
deriving Repr, DecidableEq

/-- Filesystem contents plus the log of external collaborator invocations. -/
structure St where
  fs : List String
  log : List REffect
deriving Repr, DecidableEq

/-- `DEFAULT_PARCELLATION_NAMING` (registrations/utils.py). -/
def DEFAULT_PARCELLATION_NAMING : QPA.Dict String :=
  [("space", "T1w"), ("suffix", "dseg"), ("desc", "")]

/-- `PROBSEG_THRESHOLD` (registrations/utils.py). -/
def PROBSEG_THRESHOLD : Rat := 1 / 100

/-- Embedding of `NativeRegistration.build_output_dictionary`
(registrations/registrations.py, lines 76-110): one whole-brain and one
gm-cropped dseg path under the derivatives root, named from the reference
record's entities. A reference whose entities fit no naming template makes
the Python `Path / None` join raise, embedded as a `typeError`. -/
def build_output_dictionary (env : Env) (parcellation_scheme : String)
    (reference : FileRec) (resolution : String) : Except Err (QPA.Dict String) :=
  let basic_query : QPA.Dict String :=
    ("atlas", parcellation_scheme) :: ("resolution", resolution)
      :: DEFAULT_PARCELLATION_NAMING
  match build_relative_path reference.entities (dictSet basic_query "label" "WholeBrain"),
        build_relative_path reference.entities (dictSet basic_query "label" "GM") with
  | some wb, some gm =>
    .ok [("whole_brain", env.derivRoot ++ "/" ++ wb),
         ("gm_cropped", env.derivRoot ++ "/" ++ gm)]
  | _, _ => .error .typeError

/-- The two-path projection `[outputs.get(key) for key in [whole_brain,
gm_cropped]]` used by both registration steps; the defaults are never reached
because `build_output_dictionary` always returns both keys. -/
def build_output_pair (env : Env) (parcellation_scheme : String)
    (reference : FileRec) (resolution : String) : Except Err (String × String) :=
  (build_output_dictionary env parcellation_scheme reference resolution).map
    fun d => ((dictGet d "whole_brain").getD "None", (dictGet d "gm_cropped").getD "None")

/-- Embedding of `NativeRegistration.register_to_anatomical`
(registrations.py, lines 112-161): resolve the three anatomical requirements,
plan the two anatomical-space outputs, and invoke the external warp and crop
collaborators (which write their outputs). A missing anatomical reference
makes output planning raise, embedded as `typeError`. -/
def register_to_anatomical (env : Env) (st : St) (parcellation_scheme : String)
    (probseg_threshold : Option Rat) (force : Bool) :
    Except Err (St × String × String) :=
  let mni2native := env.getDerivative "subject_specific" "mni_to_native_transform"
  let reference := env.getDerivative "subject_specific" "native_T1w"
  let gm_probseg := env.getDerivative "subject_specific" "native_gm"
  match reference with
  | none => .error .typeError
  | some ref =>
    match build_output_pair env parcellation_scheme ref "anat" with
    | .error e => .error e
    | .ok (whole_brain, gm_cropped) =>
      let thr := match probseg_threshold with
        | some t => if t = 0 then PROBSEG_THRESHOLD else t
        | none => PROBSEG_THRESHOLD
      .ok ({ fs := st.fs ++ [whole_brain, gm_cropped],
             log := st.log
               ++ [.registerScheme parcellation_scheme env.participant_label
                     ref.path (mni2native.map FileRec.path) whole_brain force,
                   .cropToProbseg parcellation_scheme env.participant_label
                     whole_brain (gm_probseg.map FileRec.path) gm_cropped thr force] },
           whole_brain, gm_cropped)

/-- Embedding of `NativeRegistration.register_dwi` (registrations.py, lines
163-209): resolve the session's coregistered DWI reference (raising
`FileNotFoundError` when absent), plan the two diffusion-space outputs, and
resample each anatomical parcellation onto the reference grid with
nearest-neighbor interpolation unless the target already exists and force is
false. `resampleStep` is one conditional resampling step of that loop. -/
def resampleStep (st : St) (refPath src tgt : String) (force : Bool) : St :=
  if tgt ∉ st.fs ∨ force = true then
    { fs := st.fs ++ [tgt],
      log := st.log ++ [REffect.resample src refPath tgt "nearest"] }
  else st

def register_dwi (env : Env) (st : St) (parcellation_scheme session : String)
    (anatomical_whole_brain anatomical_gm_cropped : String) (force : Bool) :
    Except Err (St × String × String) :=
  match env.getDerivative session "coreg_dwi_image" with
  | none => .error (.fileNotFound env.participant_label)
  | some ref =>
    match build_output_pair env parcellation_scheme ref "dwi" with
    | .error e => .error e
    | .ok (whole_brain, gm_cropped) =>
      let st1 := resampleStep st ref.path anatomical_whole_brain whole_brain force
      let st2 := resampleStep st1 ref.path anatomical_gm_cropped gm_cropped force
      .ok (st2, whole_brain, gm_cropped)

/-- The per-session loop of `NativeRegistration.run` (registrations.py, lines
248-259), accumulating one `whole_brain`/`gm_cropped` entry per session. -/
def runSessions (env : Env) (st : St) (parcellation_scheme : String)
    (sessions : List String) (anat_wb anat_gm : String) (force : Bool)
    (acc : QPA.Dict (QPA.Dict String)) :
    Except Err (St × QPA.Dict (QPA.Dict String)) :=
  match sessions with
  | [] => .ok (st, acc)
  | s :: rest =>
    match register_dwi env st parcellation_scheme s anat_wb anat_gm force with
    | .error e => .error e
    | .ok (st', wb, gm) =>
      runSessions env st' parcellation_scheme rest anat_wb anat_gm force
        (dictSet acc s [("whole_brain", wb), ("gm_cropped", gm)])

/-- Embedding of `NativeRegistration.run` (registrations.py, lines 211-260):
anatomical-space registration once, then diffusion-space registration for
each session of `listify_sessions`, returning the nested output mapping. -/
def run (env : Env) (st : St) (parcellation_scheme : String)
    (session : Option StrOrList) (probseg_threshold : Option Rat)
    (force : Bool) : Except Err (St × QPA.Dict (QPA.Dict String)) :=
  match register_to_anatomical env st parcellation_scheme probseg_threshold force with
  | .error e => .error e
  | .ok (st1, anat_wb, anat_gm) =>
    runSessions env st1 parcellation_scheme
      (listify_sessions env.sessions session) anat_wb anat_gm force
      [("anat", [("whole_brain", anat_wb), ("gm_cropped", anat_gm)])]

end QPA.Reg

namespace QPA.TE

open QPA.Bids

/-- `TensorEstimation.TENSOR_TYPES` (tensors/tensor_estimation.py, lines
41-45): acquisition code and fit method per registered tensor type. -/
structure TensorTypeCfg where
  acq : String
  fit_method : String
deriving Repr, DecidableEq

def TENSOR_TYPES : QPA.Dict TensorTypeCfg :=
  [("diffusion_tensor", ⟨"dt", "WLS"⟩),
   ("diffusion_kurtosis", ⟨"dk", "WLS"⟩),
   ("restore_tensor", ⟨"rt", "restore"⟩)]

/-- Modelled from the spec: the module tensors/utils/templates.py, from which
tensor_estimation.py imports `TENSOR_DERIVED_METRICS`, is absent from src.
The spec declares tensor type diffusion_tensor with the ordered metric list
fa, md, ad, rd; the other tensor types' metric lists are left open and the
theorems quantify over the class-level metrics table instead. -/
def METRICS : String → List String :=
  fun tensor_type =>
    if tensor_type = "diffusion_tensor" then ["fa", "md", "ad", "rd"] else []

/-- `TENSOR_DERIVED_ENTITIES` (as in the src module tensors/utils.py shadowed
by the utils package): fixed entity replacements of every tensor-derived
output. -/
def TENSOR_ENTITIES : QPA.Dict String := [("suffix", "dwiref"), ("resolution", "dwi")]

/-- `KWARGS_MAPPING` (as in the src module tensors/utils.py). -/
def KWARGS_MAPPING : QPA.Dict String :=
  [("coreg_dwi_image", "input_files"), ("coreg_dwi_bval", "bvalues_files"),
   ("coreg_dwi_bvec", "bvectors_files"), ("coreg_dwi_brain_mask", "mask_files")]

/-- Embedding of `TensorEstimation.validate_tensor_type`
(tensor_estimation.py, lines 127-148): the configuration of a registered
tensor type, or `NotImplementedError` otherwise. -/
def validate_tensor_type (tensor_type : String) : Except Err TensorTypeCfg :=
  match dictGet TENSOR_TYPES tensor_type with
  | none => .error (.notImplemented tensor_type)
  | some cfg => .ok cfg

/-- Embedding of `TensorEstimation.validate_requested_output`
(tensor_estimation.py, lines 150-178) over a metrics table: valid metrics
pass silently, invalid metrics fail and emit one INVALID_OUTPUT warning,
recorded here by the offending metric name. -/
def validate_requested_output (metricsOf : String → List String)
    (tensor_type output : String) : Bool × List String :=
  if output ∈ metricsOf tensor_type then (true, []) else (false, [output])

/-- Splits a character list at every occurrence of the separator: the
structural counterpart of the Python str.split call in tensor_estimation.py
line 206. -/
def splitChars (sep : Char) : List Char → List (List Char)
  | [] => [[]]
  | c :: rest =>
    match splitChars sep rest with
    | [] => if c = sep then [[], []] else [[c]]
    | h :: t => if c = sep then [] :: h :: t else (c :: h) :: t

/-- Python str.capitalize: first character upper-cased, the rest
lower-cased. -/
def pyCapitalize (s : String) : String :=
  match s.data with
  | [] => s
  | c :: rest => String.mk (c.toUpper :: rest.map Char.toLower)

/-- The desc entity of one output metric (tensor_estimation.py, lines
206-212): a two-part metric name such as dt_tensor renders in camel case. -/
def outputDesc (output : String) : String :=
  match (splitChars '_' output.data).map String.mk with
  | p0 :: p1 :: _ => p0 ++ pyCapitalize p1
  | _ => output

/-- Embedding of `TensorEstimation.build_output_dictionary`
(tensor_estimation.py, lines 180-226): for each requested metric (all the
tensor type's metrics when the request is empty or absent) that validates
against the metrics table, plan one out_<metric> path built from the source
DWI's entities with the tensor type's acquisition code; collect the warnings
of rejected metrics. An unregistered tensor type makes the Python class-table
lookups raise, embedded as `typeError`; the path builder is the spec's
Path/Query Builder (`DataGrabber.build_path` is absent from src, and the spec
gives `build_relative_path` as its contract). `buildOutputStep` is one
iteration of the loop: a validated metric adds its out_<metric> path, an
invalid one only its warning. -/
def buildOutputStep (metricsOf : String → List String) (source : QPA.Dict String)
    (tensor_type : String) (cfg : TensorTypeCfg)
    (acc : QPA.Dict String × List String) (output : String) :
    QPA.Dict String × List String :=
  let v := validate_requested_output metricsOf tensor_type output
  if v.1 then
    let reps : QPA.Dict String :=
      ("acquisition", cfg.acq) :: ("desc", outputDesc output) :: TENSOR_ENTITIES
    (dictSet acc.1 ("out_" ++ output)
      ((build_relative_path source reps).getD "None"), acc.2 ++ v.2)
  else (acc.1, acc.2 ++ v.2)

def build_output_dictionary (metricsOf : String → List String)
    (source : QPA.Dict String) (tensor_type : String)
    (outputs : Option (List String)) : Except Err (QPA.Dict String × List String) :=
  match dictGet TENSOR_TYPES tensor_type with
  | none => .error .typeError
  | some cfg =>
    let outs := match outputs with
      | none => metricsOf tensor_type
      | some [] => metricsOf tensor_type
      | some l => l
    .ok (outs.foldl (buildOutputStep metricsOf source tensor_type cfg) ([], []))

/-- One resolved DWI input set (the dictionaries produced by
`get_subject_dwi`): the source DWI as its entity mapping plus the four input
file paths. -/
structure Inputs where
  dwi : QPA.Dict String
  dwiPath : String
  bval : String
  bvec : String
  mask : String
deriving Repr, DecidableEq

def inputsDict (i : Inputs) : QPA.Dict String :=
  [("dwi", i.dwiPath), ("bval", i.bval), ("bvec", i.bvec), ("mask", i.mask)]

/-- Embedding of `TensorEstimation.map_kwargs_to_workflow`
(tensor_estimation.py, lines 228-248): rename each input key through
`KWARGS_MAPPING`, keeping unknown keys unchanged. -/
def map_kwargs_to_workflow (inputs : QPA.Dict String) : QPA.Dict String :=
  inputs.foldl
    (fun acc p => dictSet acc ((dictGet KWARGS_MAPPING p.1).getD p.1) p.2) []

/-- Modelled from the spec: the dipy reconstruction workflows
(`ReconstDtiFlow` / `ReconstDkiFlow`) are external collaborators; per the
spec they write the requested outputs on success and their failures (such as
a missing required input file) propagate to the caller. The environment's
`wfErr` decides the outcome of one workflow invocation from its keyword
arguments and planned outputs. -/
structure Env where
  metricsOf : String → List String
  subjects : QPA.Dict (Option (List String))
  subject_dwi : String → String → List Inputs
  wfErr : QPA.Dict String → QPA.Dict String → Option Err

/-- Filesystem contents plus the log of reconstruction-workflow
invocations (tensor type and planned outputs of each invocation). -/
structure St where
  fs : List String
  invocations : List (String × QPA.Dict String)
deriving Repr, DecidableEq

/-- Embedding of `TensorEstimation.run_single_input` (tensor_estimation.py,
lines 294-339): plan the outputs, and invoke the reconstruction workflow
exactly when not all planned outputs exist on disk or force is set, returning
the planned output dictionary either way (second component: whether the
workflow was invoked). -/
def run_single_input (env : Env) (st : St) (inputs : Inputs)
    (tensor_type : String) (out_metrics : Option (List String)) (force : Bool) :
    Except Err (QPA.Dict String × Bool × St) :=
  match validate_tensor_type tensor_type with
  | .error e => .error e
  | .ok cfg =>
    match build_output_dictionary env.metricsOf inputs.dwi tensor_type out_metrics with
    | .error e => .error e
    | .ok (outputs, _warnings) =>
      let workflow_kwargs := map_kwargs_to_workflow (inputsDict inputs)
      let workflow_kwargs := dictSet workflow_kwargs "fit_method" cfg.fit_method
      let outputs_exist := (dictValues outputs).all fun p => st.fs.contains p
      if ¬ outputs_exist = true ∨ force = true then
        match env.wfErr workflow_kwargs outputs with
        | some e => .error e
        | none =>
          .ok (outputs, true,
               { fs := st.fs ++ dictValues outputs,
                 invocations := st.invocations ++ [(tensor_type, outputs)] })
      else .ok (outputs, false, st)

/-- The inner loop of `run_single_session` over the resolved DWI input sets
for one tensor type. -/
def runInputsFor (env : Env) (st : St) (dwis : List Inputs)
    (tensor_type : String) (out_metrics : Option (List String)) (force : Bool) :
    Except Err (List (QPA.Dict String) × St) :=
  match dwis with
  | [] => .ok ([], st)
  | i :: rest =>
    match run_single_input env st i tensor_type out_metrics force with
    | .error e => .error e
    | .ok (outs, _, st') =>
      match runInputsFor env st' rest tensor_type out_metrics force with
      | .error e => .error e
      | .ok (l, st'') => .ok (outs :: l, st'')

/-- The tensor-type loop of `run_single_session` over the session's resolved
DWI input sets. -/
def runTensorTypesFor (env : Env) (st : St) (dwis : List Inputs)
    (tts : List String) (out_metrics : Option (List String)) (force : Bool)
    (acc : QPA.Dict (List (QPA.Dict String))) :
    Except Err (QPA.Dict (List (QPA.Dict String)) × St) :=
  match tts with
  | [] => .ok (acc, st)
  | tt :: rest =>
    match runInputsFor env st dwis tt out_metrics force with
    | .error e => .error e
    | .ok (l, st') => runTensorTypesFor env st' dwis rest out_metrics force (dictSet acc tt l)

/-- Embedding of `TensorEstimation.run_single_session` (tensor_estimation.py,
lines 341-383): resolve the session's DWIs once, then run every tensor type
over them, accumulating tensor_type-keyed lists of output dictionaries. -/
def run_single_session (env : Env) (st : St) (participant_label session : String)
    (tensor_types : List String) (out_metrics : Option (List String))
    (force : Bool) : Except Err (QPA.Dict (List (QPA.Dict String)) × St) :=
  runTensorTypesFor env st (env.subject_dwi participant_label session)
    tensor_types out_metrics force []

/-- The Python truthiness-aware resolution `sessions = session or
self.subjects.get(participant_label)` followed by the wrap of a string into a
one-element list (tensor_estimation.py, lines 287-289). -/
def resolveSessions (fallback : Option (List String))
    (session : Option StrOrList) : Option (List String) :=
  match session with
  | some (.inl s) => some [s]
  | some (.inr l) => if l.isEmpty then fallback else some l
  | none => fallback

/-- Embedding of `TensorEstimation.validate_single_subject_run`
(tensor_estimation.py, lines 250-292): reject unknown participants
(ValueError) and unhashable list labels (TypeError); default the tensor types
to all registered types and the sessions to the participant's sessions; wrap
string arguments into singleton lists. -/
def validate_single_subject_run (env : Env)
    (participant_label : StrOrList) (session : Option StrOrList)
    (tensor_type : Option StrOrList) (out_metrics : Option StrOrList) :
    Except Err (List String × Option (List String) × Option (List String)) :=
  match participant_label with
  | .inr _ => .error .typeError
  | .inl p =>
    match dictGet env.subjects p with
    | none => .error (.invalidParticipant p)
    | some sessionsOfP =>
      let tensor_types := match tensor_type with
        | some (.inl s) => [s]
        | some (.inr l) => if l.isEmpty then dictKeys TENSOR_TYPES else l
        | none => dictKeys TENSOR_TYPES
      let sessions := resolveSessions sessionsOfP session
      let out := match out_metrics with
        | some (.inl s) => some [s]
        | some (.inr l) => some l
        | none => none
      .ok (tensor_types, sessions, out)

/-- The per-session loop of `run_single_subject`. -/
def runSubjectSessions (env : Env) (st : St) (participant_label : String)
    (sessions : List String) (tensor_types : List String)
    (out_metrics : Option (List String)) (force : Bool)
    (acc : QPA.Dict (QPA.Dict (List (QPA.Dict String)))) :
    Except Err (QPA.Dict (QPA.Dict (List (QPA.Dict String))) × St) :=
  match sessions with
  | [] => .ok (acc, st)
  | s :: rest =>
    match run_single_session env st participant_label s tensor_types out_metrics force with
    | .error e => .error e
    | .ok (r, st') =>
      runSubjectSessions env st' participant_label rest tensor_types out_metrics
        force (dictSet acc s r)

/-- Embedding of `TensorEstimation.run_single_subject` (tensor_estimation.py,
lines 385-426): validate, then run every resolved session; a `None` session
list makes the Python for-loop raise TypeError. -/
def run_single_subject (env : Env) (st : St)
    (participant_label : StrOrList) (session : Option StrOrList)
    (tensor_type : Option StrOrList) (out_metrics : Option StrOrList)
    (force : Bool) :
    Except Err (QPA.Dict (QPA.Dict (List (QPA.Dict String))) × St) :=
  match validate_single_subject_run env participant_label session tensor_type out_metrics with
  | .error e => .error e
  | .ok (tensor_types, sessionsOpt, om) =>
    match sessionsOpt with
    | none => .error .typeError
    | some sessions =>
      match participant_label with
      | .inl p => runSubjectSessions env st p sessions tensor_types om force []
      | .inr _ => .error .typeError

/-- The participant list of `run_dataset` (tensor_estimation.py, lines
455-461), including the source's wrapping of a list argument into a
single-element list containing the whole list. -/
def datasetLabels (env : Env) (participant_label : Option StrOrList) :
    List StrOrList :=
  match participant_label with
  | some (.inl s) =>
    if s.isEmpty then (dictKeys env.subjects).map Sum.inl else [.inl s]
  | some (.inr l) =>
    if l.isEmpty then (dictKeys env.subjects).map Sum.inl else [.inr l]
  | none => (dictKeys env.subjects).map Sum.inl

/-- One subject's job inside the `run_dataset` loop (tensor_estimation.py,
lines 462-470): look up the subject's sessions and run the single-subject
driver; a list-typed label is unhashable in the Python dict lookup. -/
def datasetStep (env : Env) (st : St) (pl : StrOrList)
    (tensor_type out_metrics : Option StrOrList) (force : Bool) :
    Except Err (String × QPA.Dict (QPA.Dict (List (QPA.Dict String))) × St) :=
  match pl with
  | .inr _ => .error .typeError
  | .inl p =>
    let sessionsArg : Option StrOrList :=
      ((dictGet env.subjects p).bind id).map Sum.inr
    match run_single_subject env st (.inl p) sessionsArg tensor_type out_metrics force with
    | .error e => .error e
    | .ok (res, st') => .ok (p, res, st')

def runDatasetFrom (env : Env) (labels : List StrOrList) (st : St)
    (acc : QPA.Dict (QPA.Dict (QPA.Dict (List (QPA.Dict String)))))
    (tensor_type out_metrics : Option StrOrList) (force : Bool) :
    Except Err (St × QPA.Dict (QPA.Dict (QPA.Dict (List (QPA.Dict String))))) :=
  match labels with
  | [] => .ok (st, acc)
  | pl :: rest =>
    match datasetStep env st pl tensor_type out_metrics force with
    | .error e => .error e
    | .ok (p, res, st') =>
      runDatasetFrom env rest st' (dictSet acc p res) tensor_type out_metrics force

/-- Embedding of `TensorEstimation.run_dataset` (tensor_estimation.py, lines
428-471): iterate the requested (or all) subjects, accumulating the nested
per-subject results mapping; the source function has no return statement, so
the accumulated mapping is dropped and the returned value is `none`. -/
def run_dataset (env : Env) (st : St)
    (participant_label tensor_type out_metrics : Option StrOrList)
    (force : Bool) :
    Except Err (St × Option (QPA.Dict (QPA.Dict (QPA.Dict (List (QPA.Dict String)))))) :=
  match runDatasetFrom env (datasetLabels env participant_label) st []
      tensor_type out_metrics force with
  | .error e => .error e
  | .ok (st', _tensor_metrics) => .ok (st', none)

end QPA.TE

namespace QPA.Parc

/-- The merged query issued by `get_reference`. -/
def referenceQuery (participant_label : String) (reference_type : RefType)
    (bids_filters : Option Query) : Query :=
  apply_bids_filters
    (("subject", some participant_label)
      :: (dictGet QUERIES (refTypeKey reference_type)).getD [])
    bids_filters

/-- The merged query issued by `get_transforms` for one transform name. -/
def transformQuery (participant_label t : String)
    (bids_filters : Option Query) : Query :=
  apply_bids_filters
    (("subject", some participant_label) :: (dictGet QUERIES t).getD [])
    bids_filters

/-- The merged query issued by `get_probseg`. -/
def probsegQuery (participant_label tissue_type : String)
    (bids_filters : Option Query) : Query :=
  apply_bids_filters
    (("subject", some participant_label) :: ("label", some tissue_type.toUpper)
      :: (dictGet QUERIES "probseg").getD [])
    bids_filters

end QPA.Parc

namespace QPA.Fixtures

/-- A concrete preprocessed DWI source, as its parsed entity mapping. -/
def srcDwi : QPA.Dict String :=
  [("subject", "01"), ("session", "01"), ("datatype", "dwi"),
   ("space", "T1w"), ("desc", "preproc"), ("suffix", "dwi"),
   ("extension", ".nii.gz")]

/-- A concrete resolved DWI input set. -/
def inputs0 : TE.Inputs :=
  { dwi := srcDwi,
    dwiPath := "sub-01/ses-01/dwi/sub-01_ses-01_space-T1w_desc-preproc_dwi.nii.gz",
    bval := "sub-01/ses-01/dwi/sub-01_ses-01_space-T1w_desc-preproc_dwi.bval",
    bvec := "sub-01/ses-01/dwi/sub-01_ses-01_space-T1w_desc-preproc_dwi.bvec",
    mask := "sub-01/ses-01/dwi/sub-01_ses-01_space-T1w_desc-brain_mask.nii.gz" }

/-- A tensor-estimation environment whose workflow collaborator always
succeeds, over one subject with one session. -/
def teEnvOk : TE.Env :=
  { metricsOf := TE.METRICS,
    subjects := [("01", some ["01"])],
    subject_dwi := fun _ _ => [inputs0],
    wfErr := fun _ _ => none }

/-- A tensor-estimation environment over two subjects whose workflow
collaborator fails with a missing-required-input error. -/
def teEnvFail : TE.Env :=
  { metricsOf := TE.METRICS,
    subjects := [("01", some ["01"]), ("02", some ["01"])],
    subject_dwi := fun _ _ => [inputs0],
    wfErr := fun _ _ => some .missingInput }

/-- A concrete anatomical reference record. -/
def refAnat : FileRec :=
  { path := "sub-01/anat/sub-01_desc-preproc_T1w.nii.gz",
    entities :=
      [("subject", "01"), ("datatype", "anat"), ("desc", "preproc"),
       ("suffix", "T1w"), ("extension", ".nii.gz")] }

/-- A concrete coregistered DWI reference record for session 01. -/
def refDwi01 : FileRec :=
  { path := "sub-01/ses-01/dwi/sub-01_ses-01_space-T1w_desc-preproc_dwi.nii.gz",
    entities := srcDwi }

/-- A concrete standard-to-native transform record. -/
def xfmRec : FileRec :=
  { path := "sub-01/anat/sub-01_from-MNI152NLin2009cAsym_to-T1w_mode-image_xfm.h5",
    entities := [("subject", "01"), ("suffix", "xfm")] }

/-- A concrete gray-matter probability segmentation record. -/
def gmRec : FileRec :=
  { path := "sub-01/anat/sub-01_label-GM_probseg.nii.gz",
    entities := [("subject", "01"), ("label", "GM"), ("suffix", "probseg")] }

/-- A registration environment for participant 01 with every derivative
present, session 01 included. -/
def regEnvOk : Reg.Env :=
  { participant_label := "01",
    sessions := ["01"],
    derivRoot := "derivatives/qsiprep_analyses",
    getDerivative := fun main_key sub_key =>
      if main_key = "subject_specific" ∧ sub_key = "mni_to_native_transform" then
        some xfmRec
      else if main_key = "subject_specific" ∧ sub_key = "native_T1w" then
        some refAnat
      else if main_key = "subject_specific" ∧ sub_key = "native_gm" then
        some gmRec
      else if main_key = "01" ∧ sub_key = "coreg_dwi_image" then
        some refDwi01
      else none }

/-- A registration environment with all three anatomical requirements present
but no coregistered DWI reference for session 01. -/
def regEnvNoDwiRef : Reg.Env :=
  { participant_label := "01",
    sessions := ["01"],
    derivRoot := "derivatives/qsiprep_analyses",
    getDerivative := fun main_key sub_key =>
      if main_key = "subject_specific" ∧ sub_key = "mni_to_native_transform" then
        some xfmRec
      else if main_key = "subject_specific" ∧ sub_key = "native_T1w" then
        some refAnat
      else if main_key = "subject_specific" ∧ sub_key = "native_gm" then
        some gmRec
      else none }

end QPA.Fixtures

namespace QPA

theorem dictGet_dictSet_self {α : Type} (d : Dict α) (k : String) (v : α) :
    dictGet (dictSet d k v) k = some v := by
  induction d with
  | nil => simp [dictSet, dictGet]
  | cons p t ih =>
    by_cases h : p.1 = k
    · simp [dictSet, dictGet, h]
    · simp [dictSet, dictGet, h, ih]

theorem dictGet_dictSet_ne {α : Type} (d : Dict α) (k k' : String) (v : α)
    (h : k' ≠ k) : dictGet (dictSet d k v) k' = dictGet d k' := by
  have hkk : ¬ k = k' := fun he => h he.symm
  induction d with
  | nil => simp [dictSet, dictGet, hkk]
  | cons p t ih =>
    by_cases hp : p.1 = k
    · simp [dictSet, dictGet, hp, hkk]
    · by_cases hp' : p.1 = k'
      · simp [dictSet, dictGet, hp, hp', h]
      · simp [dictSet, dictGet, hp, hp', ih]

theorem dictKeys_mem_dictSet {α : Type} (d : Dict α) (k k' : String) (v : α) :
    k' ∈ dictKeys (dictSet d k v) ↔ k' ∈ dictKeys d ∨ k' = k := by
  induction d with
  | nil => simp [dictSet, dictKeys]
  | cons p t ih =>
    by_cases hp : p.1 = k
    · rw [show dictSet (p :: t) k v = (k, v) :: t from by simp [dictSet, hp]]
      simp only [dictKeys, List.map_cons, List.mem_cons, hp]
      tauto
    · have ih' := ih
      simp only [dictKeys] at ih'
      simp only [dictSet, if_neg hp, dictKeys, List.map_cons, List.mem_cons, ih']
      tauto

theorem dictGet_dictMerge_not_mem {α : Type} (original replacements : Dict α)
    (k : String) (h : k ∉ dictKeys replacements) :
    dictGet (dictMerge original replacements) k = dictGet original k := by
  induction replacements generalizing original with
  | nil => rfl
  | cons p t ih =>
    simp only [dictKeys, List.map_cons, List.mem_cons, not_or] at h
    have step : dictMerge original (p :: t) = dictMerge (dictSet original p.1 p.2) t := rfl
    rw [step, ih (dictSet original p.1 p.2) (by simpa [dictKeys] using h.2),
      dictGet_dictSet_ne _ _ _ _ h.1]

theorem dictGet_dictMerge_mem {α : Type} (original replacements : Dict α)
    (k : String) (v : α) (hnd : (dictKeys replacements).Nodup)
    (hmem : (k, v) ∈ replacements) :
    dictGet (dictMerge original replacements) k = some v := by
  induction replacements generalizing original with
  | nil => cases hmem
  | cons p t ih =>
    simp only [dictKeys, List.map_cons, List.nodup_cons] at hnd
    have step : dictMerge original (p :: t) = dictMerge (dictSet original p.1 p.2) t := rfl
    rcases List.mem_cons.mp hmem with h | h
    · subst h
      have hk : k ∉ dictKeys t := by
        intro hk
        exact hnd.1 (by simpa [dictKeys] using hk)
      rw [step, dictGet_dictMerge_not_mem _ _ _ hk, dictGet_dictSet_self]
    · exact step ▸ ih (dictSet original p.1 p.2) (by simpa [dictKeys] using hnd.2) h

/-- Claim C6: `validate_instantiation` raises exactly when both a derivatives
object and a participant label are supplied, or when no derivatives object is
supplied and base_dir and participant_label are not both supplied; in every
other case it returns a derivatives object — the one given, or a new one
constructed from base_dir, participant_label and sessions_base. -/
theorem C6_validate_instantiation (derivatives : Option QsiprepDerivatives)
    (base_dir sessions_base participant_label : Option String) :
    ((∃ e, validate_instantiation derivatives base_dir sessions_base participant_label
        = .error e)
      ↔ ((derivatives.isSome = true ∧ participant_label.isSome = true)
          ∨ (derivatives = none
              ∧ ¬(base_dir.isSome = true ∧ participant_label.isSome = true))))
  ∧ (∀ d, derivatives = some d → participant_label = none →
      validate_instantiation derivatives base_dir sessions_base participant_label = .ok d)
  ∧ (∀ b p, derivatives = none → base_dir = some b → participant_label = some p →
      validate_instantiation derivatives base_dir sessions_base participant_label
        = .ok ⟨⟨p, b, sessions_base⟩⟩) := by
  rcases derivatives with _ | d <;> rcases base_dir with _ | b <;>
    rcases participant_label with _ | p <;>
    simp [validate_instantiation]

/-- Witness for C6: a supplied derivatives object is returned as is, and with
no derivatives object a new one is built from base_dir and participant. -/
theorem C6_validate_instantiation_witness :
    validate_instantiation (some ⟨⟨"01", "/data", none⟩⟩) none none none
      = .ok ⟨⟨"01", "/data", none⟩⟩
  ∧ validate_instantiation none (some "/data") none (some "01")
      = .ok ⟨⟨"01", "/data", none⟩⟩ :=
  ⟨(C6_validate_instantiation (some ⟨⟨"01", "/data", none⟩⟩) none none none).2.1
      ⟨⟨"01", "/data", none⟩⟩ rfl rfl,
   (C6_validate_instantiation none (some "/data") none (some "01")).2.2
      "/data" "01" rfl rfl rfl⟩

/-- Claim C8: overlaying replacements onto an original dictionary — in
`apply_bids_filters` and in the entity-overlay step of `build_relative_path`
(`combinedEntities`) — gives every key of the replacements its replacement
value, keeps the original value for every key only in the original, and (the
embedding being the pure counterpart of Python's copy-then-assign) hands back
the original unmodified when no replacements are supplied. -/
theorem C8_overlay (α : Type) (original replacements : Dict α)
    (entities entity_replacements : Dict String) (k q : String)
    (hnd : (dictKeys replacements).Nodup)
    (hnd2 : (dictKeys entity_replacements).Nodup) :
    (∀ v, (k, v) ∈ replacements →
      dictGet (apply_bids_filters original (some replacements)) k = some v)
  ∧ (k ∉ dictKeys replacements →
      dictGet (apply_bids_filters original (some replacements)) k = dictGet original k)
  ∧ apply_bids_filters original none = original
  ∧ (∀ v, (q, v) ∈ entity_replacements →
      dictGet (Bids.combinedEntities entities entity_replacements) q = some v)
  ∧ (q ∉ dictKeys entity_replacements →
      dictGet (Bids.combinedEntities entities entity_replacements) q = dictGet entities q) := by
  refine ⟨fun v hv => ?_, fun hk => ?_, rfl, fun v hv => ?_, fun hq => ?_⟩
  · exact dictGet_dictMerge_mem original replacements k v hnd hv
  · exact dictGet_dictMerge_not_mem original replacements k hk
  · exact dictGet_dictMerge_mem entities entity_replacements q v hnd2 hv
  · exact dictGet_dictMerge_not_mem entities entity_replacements q hq

/-- Witness for C8: a colliding key takes the replacement value, a
non-colliding key keeps its original value. -/
theorem C8_overlay_witness :
    dictGet (apply_bids_filters [("space", "T1w"), ("desc", "preproc")]
      (some [("desc", "fa"), ("label", "GM")])) "desc" = some "fa"
  ∧ dictGet (apply_bids_filters [("space", "T1w"), ("desc", "preproc")]
      (some [("desc", "fa"), ("label", "GM")])) "space" = some "T1w"
  ∧ dictGet (Bids.combinedEntities [("space", "T1w"), ("desc", "preproc")]
      [("desc", "fa"), ("label", "GM")]) "desc" = some "fa" :=
  ⟨(C8_overlay String [("space", "T1w"), ("desc", "preproc")]
      [("desc", "fa"), ("label", "GM")] [] [] "desc" "x" (by decide) (by decide)).1
      "fa" (by decide),
   (C8_overlay String [("space", "T1w"), ("desc", "preproc")]
      [("desc", "fa"), ("label", "GM")] [] [] "space" "x" (by decide) (by decide)).2.1
      (by decide),
   (C8_overlay String [] [] [("space", "T1w"), ("desc", "preproc")]
      [("desc", "fa"), ("label", "GM")] "x" "desc" (by decide) (by decide)).2.2.2.1
      "fa" (by decide)⟩

/-- Claim C9: `listify_sessions` returns the requested sessions (a string
wrapped into a one-element list, or a list unchanged) only when every
requested session is among the available sessions; for `none`, or for any
request containing even one unavailable session, it returns the full
available-session list — the invalid request silently widens the selection. -/
theorem C9_listify_sessions (available : List String) :
    (∀ l : List String, (∀ s ∈ l, s ∈ available) →
      listify_sessions available (some (Sum.inr l)) = l)
  ∧ (∀ l : List String, ∀ s ∈ l, s ∉ available →
      listify_sessions available (some (Sum.inr l)) = available)
  ∧ (∀ s : String, s ∈ available →
      listify_sessions available (some (Sum.inl s)) = [s])
  ∧ (∀ s : String, s ∉ available →
      listify_sessions available (some (Sum.inl s)) = available)
  ∧ listify_sessions available none = available := by
  refine ⟨fun l h => ?_, fun l s hs hna => ?_, fun s h => ?_, fun s h => ?_, rfl⟩
  · have hall : (l.all fun s => available.contains s) = true := by
      rw [List.all_eq_true]
      intro x hx
      simpa using h x hx
    show (if (l.all fun s => available.contains s) = true then l else available) = l
    rw [if_pos hall]
  · have hall : ¬ (l.all fun s => available.contains s) = true := by
      rw [List.all_eq_true]
      intro hc
      exact hna (by simpa using hc s hs)
    show (if (l.all fun s => available.contains s) = true then l else available) = available
    rw [if_neg hall]
  · have hall : ([s].all fun x => available.contains x) = true := by
      simpa using h
    show (if ([s].all fun x => available.contains x) = true then [s] else available) = [s]
    rw [if_pos hall]
  · have hall : ¬ ([s].all fun x => available.contains x) = true := by
      simpa using h
    show (if ([s].all fun x => available.contains x) = true then [s] else available) = available
    rw [if_neg hall]

/-- Witness for C9: an all-available request is returned unchanged, a request
with one unknown session falls back to the full available list. -/
theorem C9_listify_sessions_witness :
    listify_sessions ["01", "02"] (some (Sum.inr ["02"])) = ["02"]
  ∧ listify_sessions ["01", "02"] (some (Sum.inr ["02", "03"])) = ["01", "02"] :=
  ⟨(C9_listify_sessions ["01", "02"]).1 ["02"] (by decide),
   (C9_listify_sessions ["01", "02"]).2.1 ["02", "03"] "03" (by decide) (by decide)⟩

end QPA

namespace QPA.Parc

/-- Claim C5: for every participant label and filter set, the
derivative-locator operations `get_reference`, `get_transforms` and
`get_probseg` return the first matching file record's path when at least one
file matches the merged query and `none` when no file matches; they are total
functions of the file index — absence is a normal return value the caller
must check, never an exception. -/
theorem C5_locator (layout : List FileRec)
    (participant_label tissue_type : String) (reference_type : RefType)
    (bids_filters : Option Query) :
    (∀ r rs, layoutGet layout (referenceQuery participant_label reference_type bids_filters) = r :: rs →
      get_reference layout participant_label reference_type bids_filters = some r.path)
  ∧ (layoutGet layout (referenceQuery participant_label reference_type bids_filters) = [] →
      get_reference layout participant_label reference_type bids_filters = none)
  ∧ (∀ t, t ∈ TRANSFORMS →
      dictGet (get_transforms layout participant_label bids_filters) t
        = some (((layoutGet layout (transformQuery participant_label t bids_filters)).head?).map FileRec.path))
  ∧ (∀ r rs, layoutGet layout (probsegQuery participant_label tissue_type bids_filters) = r :: rs →
      get_probseg layout participant_label tissue_type bids_filters = some r.path)
  ∧ (layoutGet layout (probsegQuery participant_label tissue_type bids_filters) = [] →
      get_probseg layout participant_label tissue_type bids_filters = none) := by
  refine ⟨fun r rs h => ?_, fun h => ?_, fun t ht => ?_, fun r rs h => ?_, fun h => ?_⟩
  · show ((layoutGet layout (referenceQuery participant_label reference_type bids_filters)).head?).map FileRec.path = some r.path
    rw [h]
    rfl
  · show ((layoutGet layout (referenceQuery participant_label reference_type bids_filters)).head?).map FileRec.path = none
    rw [h]
    rfl
  · simp only [TRANSFORMS, List.mem_cons, List.not_mem_nil, or_false] at ht
    rcases ht with rfl | rfl
    · rfl
    · rfl
  · show ((layoutGet layout (probsegQuery participant_label tissue_type bids_filters)).head?).map FileRec.path = some r.path
    rw [h]
    rfl
  · show ((layoutGet layout (probsegQuery participant_label tissue_type bids_filters)).head?).map FileRec.path = none
    rw [h]
    rfl

/-- Witness for C5: a matching anatomical reference is found by path, and the
empty file index gives `none` or none-valued transform entries everywhere. -/
theorem C5_locator_witness :
    get_reference [Fixtures.refAnat] "01" RefType.anat none
      = some "sub-01/anat/sub-01_desc-preproc_T1w.nii.gz"
  ∧ get_reference [] "01" RefType.anat none = none
  ∧ get_probseg [] "01" "gm" none = none
  ∧ dictGet (get_transforms [] "01" none) "mni2native" = some none :=
  ⟨(C5_locator [Fixtures.refAnat] "01" "gm" RefType.anat none).1
      Fixtures.refAnat [] (by decide),
   (C5_locator [] "01" "gm" RefType.anat none).2.1 (by decide),
   (C5_locator [] "01" "gm" RefType.anat none).2.2.2.2 (by decide),
   ((C5_locator [] "01" "gm" RefType.anat none).2.2.1 "mni2native"
      (by decide)).trans (by decide)⟩

end QPA.Parc

namespace QPA.Reg

/-- Claim C7: `register_dwi` fails with the missing-reference error
(`FileNotFoundError`, the spec's MissingReferenceError) when the session's
coregistered diffusion reference cannot be located; when the reference is
found, each of the whole-brain and gray-matter-cropped parcellations is
resampled — always with nearest-neighbor interpolation — exactly when its
target path does not already exist or force is set, and the two planned
target paths are returned. -/
theorem C7_register_dwi (env : Env) (st : St)
    (parcellation_scheme session awb agm : String) (force : Bool) :
    (env.getDerivative session "coreg_dwi_image" = none →
      register_dwi env st parcellation_scheme session awb agm force
        = .error (.fileNotFound env.participant_label))
  ∧ (∀ ref wb gm, env.getDerivative session "coreg_dwi_image" = some ref →
      build_output_pair env parcellation_scheme ref "dwi" = .ok (wb, gm) →
      wb ≠ gm →
      ∃ st' newLog,
        register_dwi env st parcellation_scheme session awb agm force
            = .ok (st', wb, gm)
        ∧ st'.log = st.log ++ newLog
        ∧ (REffect.resample awb ref.path wb "nearest" ∈ newLog
            ↔ (wb ∉ st.fs ∨ force = true))
        ∧ (REffect.resample agm ref.path gm "nearest" ∈ newLog
            ↔ (gm ∉ st.fs ∨ force = true))
        ∧ (∀ eff ∈ newLog, ∃ src tgt,
            eff = REffect.resample src ref.path tgt "nearest")) := by
  constructor
  · intro h
    simp only [register_dwi, h]
  · intro ref wb gm href hbuild hne
    have hgw : gm ≠ wb := fun hgw => hne hgw.symm
    by_cases hc1 : wb ∉ st.fs ∨ force = true
    · have st1val : resampleStep st ref.path awb wb force
          = ⟨st.fs ++ [wb], st.log ++ [REffect.resample awb ref.path wb "nearest"]⟩ := by
        show (if wb ∉ st.fs ∨ force = true then _ else st) = _
        rw [if_pos hc1]
      by_cases hc2 : gm ∉ st.fs ∨ force = true
      · have hc2' : gm ∉ st.fs ++ [wb] ∨ force = true := by
          rcases hc2 with h | h
          · refine Or.inl ?_
            simp only [List.mem_append, List.mem_singleton, not_or]
            exact ⟨h, hgw⟩
          · exact Or.inr h
        have st2val : resampleStep
              (⟨st.fs ++ [wb], st.log ++ [REffect.resample awb ref.path wb "nearest"]⟩ : St)
              ref.path agm gm force
            = ⟨(st.fs ++ [wb]) ++ [gm],
               (st.log ++ [REffect.resample awb ref.path wb "nearest"])
                 ++ [REffect.resample agm ref.path gm "nearest"]⟩ := by
          show (if gm ∉ st.fs ++ [wb] ∨ force = true then _ else _) = _
          rw [if_pos hc2']
        refine ⟨⟨st.fs ++ [wb] ++ [gm],
                 st.log ++ [REffect.resample awb ref.path wb "nearest"]
                   ++ [REffect.resample agm ref.path gm "nearest"]⟩,
                [REffect.resample awb ref.path wb "nearest",
                 REffect.resample agm ref.path gm "nearest"], ?_, ?_, ?_, ?_, ?_⟩
        · simp only [register_dwi, href, hbuild]
          rw [st1val, st2val]
        · simp
        · exact iff_of_true (by simp) hc1
        · exact iff_of_true (by simp) hc2
        · intro eff heff
          rcases (by simpa using heff :
              eff = REffect.resample awb ref.path wb "nearest"
            ∨ eff = REffect.resample agm ref.path gm "nearest") with rfl | rfl
          · exact ⟨awb, wb, rfl⟩
          · exact ⟨agm, gm, rfl⟩
      · have hc2n := hc2
        rw [not_or] at hc2n
        have hgm : gm ∈ st.fs := by
          have := hc2n.1
          simpa using this
        have hc2' : ¬ (gm ∉ st.fs ++ [wb] ∨ force = true) := by
          rw [not_or]
          refine ⟨by simp [List.mem_append, hgm], hc2n.2⟩
        have st2val : resampleStep
              (⟨st.fs ++ [wb], st.log ++ [REffect.resample awb ref.path wb "nearest"]⟩ : St)
              ref.path agm gm force
            = ⟨st.fs ++ [wb], st.log ++ [REffect.resample awb ref.path wb "nearest"]⟩ := by
          show (if gm ∉ st.fs ++ [wb] ∨ force = true then _ else _) = _
          rw [if_neg hc2']
        refine ⟨⟨st.fs ++ [wb],
                 st.log ++ [REffect.resample awb ref.path wb "nearest"]⟩,
                [REffect.resample awb ref.path wb "nearest"], ?_, ?_, ?_, ?_, ?_⟩
        · simp only [register_dwi, href, hbuild]
          rw [st1val, st2val]
        · simp
        · exact iff_of_true (by simp) hc1
        · exact iff_of_false (by simp [hgw]) hc2
        · intro eff heff
          rcases (by simpa using heff :
              eff = REffect.resample awb ref.path wb "nearest") with rfl
          exact ⟨awb, wb, rfl⟩
    · have st1val : resampleStep st ref.path awb wb force = st := by
        show (if wb ∉ st.fs ∨ force = true then _ else st) = st
        rw [if_neg hc1]
      by_cases hc2 : gm ∉ st.fs ∨ force = true
      · have st2val : resampleStep st ref.path agm gm force
            = ⟨st.fs ++ [gm], st.log ++ [REffect.resample agm ref.path gm "nearest"]⟩ := by
          show (if gm ∉ st.fs ∨ force = true then _ else st) = _
          rw [if_pos hc2]
        refine ⟨⟨st.fs ++ [gm],
                 st.log ++ [REffect.resample agm ref.path gm "nearest"]⟩,
                [REffect.resample agm ref.path gm "nearest"], ?_, ?_, ?_, ?_, ?_⟩
        · simp only [register_dwi, href, hbuild]
          rw [st1val, st2val]
        · simp
        · exact iff_of_false (by simp [hne]) hc1
        · exact iff_of_true (by simp) hc2
        · intro eff heff
          rcases (by simpa using heff :
              eff = REffect.resample agm ref.path gm "nearest") with rfl
          exact ⟨agm, gm, rfl⟩
      · have st2val : resampleStep st ref.path agm gm force = st := by
          show (if gm ∉ st.fs ∨ force = true then _ else st) = st
          rw [if_neg hc2]
        refine ⟨st, [], ?_, by simp, iff_of_false (by simp) hc1,
                iff_of_false (by simp) hc2, ?_⟩
        · simp only [register_dwi, href, hbuild]
          rw [st1val, st2val]
        · intro eff heff
          simp at heff
end QPA.Reg

namespace QPA.Reg

/-- Witness for C7: with the session reference absent register_dwi fails with
the missing-reference error; with everything present and an empty filesystem
both targets are resampled with nearest-neighbor interpolation and returned. -/
theorem C7_register_dwi_witness :
    register_dwi Fixtures.regEnvNoDwiRef ⟨[], []⟩ "schaefer400" "01"
        "anat_wb.nii.gz" "anat_gm.nii.gz" false = .error (Err.fileNotFound "01")
  ∧ ∃ st' newLog,
      register_dwi Fixtures.regEnvOk ⟨[], []⟩ "schaefer400" "01"
          "anat_wb.nii.gz" "anat_gm.nii.gz" false
        = .ok (st',
            "derivatives/qsiprep_analyses/sub-01/ses-01/dwi/sub-01_ses-01_space-T1w_res-dwi_desc-_label-WholeBrain_atlas-schaefer400_dseg.nii.gz",
            "derivatives/qsiprep_analyses/sub-01/ses-01/dwi/sub-01_ses-01_space-T1w_res-dwi_desc-_label-GM_atlas-schaefer400_dseg.nii.gz")
      ∧ st'.log = ([] : List REffect) ++ newLog
      ∧ (REffect.resample "anat_wb.nii.gz" Fixtures.refDwi01.path
            "derivatives/qsiprep_analyses/sub-01/ses-01/dwi/sub-01_ses-01_space-T1w_res-dwi_desc-_label-WholeBrain_atlas-schaefer400_dseg.nii.gz"
            "nearest" ∈ newLog
          ↔ ("derivatives/qsiprep_analyses/sub-01/ses-01/dwi/sub-01_ses-01_space-T1w_res-dwi_desc-_label-WholeBrain_atlas-schaefer400_dseg.nii.gz"
              ∉ ([] : List String) ∨ false = true))
      ∧ (REffect.resample "anat_gm.nii.gz" Fixtures.refDwi01.path
            "derivatives/qsiprep_analyses/sub-01/ses-01/dwi/sub-01_ses-01_space-T1w_res-dwi_desc-_label-GM_atlas-schaefer400_dseg.nii.gz"
            "nearest" ∈ newLog
          ↔ ("derivatives/qsiprep_analyses/sub-01/ses-01/dwi/sub-01_ses-01_space-T1w_res-dwi_desc-_label-GM_atlas-schaefer400_dseg.nii.gz"
              ∉ ([] : List String) ∨ false = true))
      ∧ (∀ eff ∈ newLog, ∃ src tgt,
          eff = REffect.resample src Fixtures.refDwi01.path tgt "nearest") :=
  ⟨(C7_register_dwi Fixtures.regEnvNoDwiRef ⟨[], []⟩ "schaefer400" "01"
      "anat_wb.nii.gz" "anat_gm.nii.gz" false).1 rfl,
   (C7_register_dwi Fixtures.regEnvOk ⟨[], []⟩ "schaefer400" "01"
      "anat_wb.nii.gz" "anat_gm.nii.gz" false).2 Fixtures.refDwi01 _ _ rfl rfl
      (by decide)⟩

end QPA.Reg

namespace QPA

theorem mem_dictSet {α : Type} (d : Dict α) (k : String) (v : α)
    (kv : String × α) (h : kv ∈ dictSet d k v) : kv ∈ d ∨ kv = (k, v) := by
  induction d with
  | nil => simpa [dictSet] using h
  | cons p t ih =>
    by_cases hp : p.1 = k
    · rw [show dictSet (p :: t) k v = (k, v) :: t from by simp [dictSet, hp]] at h
      rcases List.mem_cons.mp h with h | h
      · exact Or.inr h
      · exact Or.inl (List.mem_cons_of_mem _ h)
    · rw [show dictSet (p :: t) k v = p :: dictSet t k v from by simp [dictSet, hp]] at h
      rcases List.mem_cons.mp h with h | h
      · exact Or.inl (h ▸ List.mem_cons_self _ _)
      · rcases ih h with h | h
        · exact Or.inl (List.mem_cons_of_mem _ h)
        · exact Or.inr h

theorem dictKeys_dictSet_not_mem {α : Type} (d : Dict α) (k : String) (v : α)
    (h : k ∉ dictKeys d) : dictKeys (dictSet d k v) = dictKeys d ++ [k] := by
  induction d with
  | nil => simp [dictSet, dictKeys]
  | cons p t ih =>
    simp only [dictKeys, List.map_cons, List.mem_cons, not_or] at h
    have hpk : ¬ p.1 = k := fun hh => h.1 hh.symm
    rw [show dictSet (p :: t) k v = p :: dictSet t k v from by
      simp [dictSet, hpk]]
    simp only [dictKeys, List.map_cons]
    rw [show List.map Prod.fst (dictSet t k v) = dictKeys (dictSet t k v) from rfl,
      ih (by simpa [dictKeys] using h.2)]
    simp [dictKeys]

end QPA

namespace QPA.Reg

theorem register_to_anatomical_ok (env : Env) (st : St)
    (parcellation_scheme : String) (probseg_threshold : Option Rat)
    (force : Bool) (ref : FileRec) (anat_wb anat_gm : String)
    (href : env.getDerivative "subject_specific" "native_T1w" = some ref)
    (hbuild : build_output_pair env parcellation_scheme ref "anat" = .ok (anat_wb, anat_gm)) :
    ∃ st1, register_to_anatomical env st parcellation_scheme probseg_threshold force
      = .ok (st1, anat_wb, anat_gm) := by
  simp only [register_to_anatomical, href, hbuild]
  exact ⟨_, rfl⟩

theorem register_dwi_ok (env : Env) (st : St)
    (parcellation_scheme s awb agm : String) (force : Bool) (r : FileRec)
    (wb gm : String) (hr : env.getDerivative s "coreg_dwi_image" = some r)
    (hb : build_output_pair env parcellation_scheme r "dwi" = .ok (wb, gm)) :
    ∃ st2, register_dwi env st parcellation_scheme s awb agm force
      = .ok (st2, wb, gm) := by
  simp only [register_dwi, hr, hb]
  exact ⟨_, rfl⟩

theorem runSessions_keys (env : Env) (parcellation_scheme : String)
    (force : Bool) (awb agm : String) (sessions : List String) :
    ∀ (st : St) (acc : QPA.Dict (QPA.Dict String)),
    (∀ s ∈ sessions, ∃ r wb gm,
      env.getDerivative s "coreg_dwi_image" = some r
        ∧ build_output_pair env parcellation_scheme r "dwi" = .ok (wb, gm)) →
    (∀ s ∈ sessions, s ∉ dictKeys acc) →
    sessions.Nodup →
    (∀ kv ∈ acc, dictKeys kv.2 = ["whole_brain", "gm_cropped"]) →
    ∃ st' out, runSessions env st parcellation_scheme sessions awb agm force acc
        = .ok (st', out)
      ∧ dictKeys out = dictKeys acc ++ sessions
      ∧ ∀ kv ∈ out, dictKeys kv.2 = ["whole_brain", "gm_cropped"] := by
  induction sessions with
  | nil =>
    intro st acc _ _ _ haccP
    exact ⟨st, acc, rfl, by simp, haccP⟩
  | cons s rest ih =>
    intro st acc hses hkeys hnd haccP
    obtain ⟨r, wb, gm, hr, hb⟩ := hses s (List.mem_cons_self _ _)
    obtain ⟨st2, hst2⟩ :=
      register_dwi_ok env st parcellation_scheme s awb agm force r wb gm hr hb
    have hsnotin : s ∉ dictKeys acc := hkeys s (List.mem_cons_self _ _)
    obtain ⟨st', out, hrun, hkeys', hP⟩ :=
      ih st2 (dictSet acc s [("whole_brain", wb), ("gm_cropped", gm)])
        (fun x hx => hses x (List.mem_cons_of_mem _ hx))
        (fun x hx => by
          have hxk : x ∉ dictKeys acc := hkeys x (List.mem_cons_of_mem _ hx)
          have hxs : x ≠ s := fun he => (List.nodup_cons.mp hnd).1 (he ▸ hx)
          rw [dictKeys_dictSet_not_mem acc s _ hsnotin]
          simp only [List.mem_append, List.mem_singleton, not_or]
          exact ⟨hxk, hxs⟩)
        (List.nodup_cons.mp hnd).2
        (fun kv hkv => by
          rcases mem_dictSet _ _ _ _ hkv with h | h
          · exact haccP kv h
          · rw [h]
            rfl)

    refine ⟨st', out, ?_, ?_, hP⟩
    · simp only [runSessions, hst2]
      exact hrun
    · rw [hkeys', dictKeys_dictSet_not_mem acc s _ hsnotin, List.append_assoc]
      rfl

/-- Claim C4 (amended): for a participant whose standard-to-native transform,
anatomical reference and gray-matter probability segmentation are all
present, whose located records render under the parcellation naming
templates, and whose every selected session also has a coregistered
diffusion reference, `run` returns a mapping whose keys are exactly "anat"
plus each available (or requested) session and whose every value holds
exactly the two entries whole_brain and gm_cropped. (The original claim
omitted the per-session diffusion reference: when it is absent,
`register_dwi` raises instead — see the counterexample.) -/
theorem C4_run_amended (env : Env) (st : St) (parcellation_scheme : String)
    (session : Option StrOrList) (probseg_threshold : Option Rat) (force : Bool)
    (ref : FileRec) (anat_wb anat_gm : String)
    (htrans : (env.getDerivative "subject_specific" "mni_to_native_transform").isSome = true)
    (hprob : (env.getDerivative "subject_specific" "native_gm").isSome = true)
    (href : env.getDerivative "subject_specific" "native_T1w" = some ref)
    (hbuild : build_output_pair env parcellation_scheme ref "anat" = .ok (anat_wb, anat_gm))
    (hses : ∀ s ∈ listify_sessions env.sessions session, ∃ r wb gm,
      env.getDerivative s "coreg_dwi_image" = some r
        ∧ build_output_pair env parcellation_scheme r "dwi" = .ok (wb, gm))
    (hnd : (listify_sessions env.sessions session).Nodup)
    (hanat : "anat" ∉ listify_sessions env.sessions session) :
    ∃ st' out, run env st parcellation_scheme session probseg_threshold force
        = .ok (st', out)
      ∧ dictKeys out = "anat" :: listify_sessions env.sessions session
      ∧ ∀ kv ∈ out, dictKeys kv.2 = ["whole_brain", "gm_cropped"] := by
  obtain ⟨st1, hst1⟩ := register_to_anatomical_ok env st parcellation_scheme
    probseg_threshold force ref anat_wb anat_gm href hbuild
  obtain ⟨st', out, hrun, hkeys, hP⟩ :=
    runSessions_keys env parcellation_scheme force anat_wb anat_gm
      (listify_sessions env.sessions session) st1
      [("anat", [("whole_brain", anat_wb), ("gm_cropped", anat_gm)])]
      hses
      (fun s hs => by
        simp only [dictKeys, List.map_cons, List.map_nil, List.mem_cons,
          List.not_mem_nil, or_false]
        exact fun he => hanat (he ▸ hs))
      hnd
      (fun kv hkv => by
        rcases List.mem_singleton.mp hkv with rfl
        rfl)
  refine ⟨st', out, ?_, ?_, hP⟩
  · simp only [run, hst1]
    exact hrun
  · rw [hkeys]
    rfl

/-- Counterexample for C4: an environment where the three anatomical
requirements of the claim's premise are all present, yet `run` raises the
missing-reference error because session 01 has no coregistered diffusion
reference — it does not return the claimed mapping. -/
theorem C4_run_counterexample :
    (Fixtures.regEnvNoDwiRef.getDerivative "subject_specific" "mni_to_native_transform").isSome = true
  ∧ (Fixtures.regEnvNoDwiRef.getDerivative "subject_specific" "native_T1w").isSome = true
  ∧ (Fixtures.regEnvNoDwiRef.getDerivative "subject_specific" "native_gm").isSome = true
  ∧ Fixtures.regEnvNoDwiRef.sessions = ["01"]
  ∧ run Fixtures.regEnvNoDwiRef ⟨[], []⟩ "schaefer400" none none false
      = .error (Err.fileNotFound "01") :=
  ⟨rfl, rfl, rfl, rfl, rfl⟩

/-- Witness for C4 (amended): with every requirement present the run returns
the anat entry plus one entry per session, each with the two outputs. -/
theorem C4_run_witness :
    ∃ st' out, run Fixtures.regEnvOk ⟨[], []⟩ "schaefer400" none none false
        = .ok (st', out)
      ∧ dictKeys out = "anat" :: listify_sessions Fixtures.regEnvOk.sessions none
      ∧ ∀ kv ∈ out, dictKeys kv.2 = ["whole_brain", "gm_cropped"] :=
  C4_run_amended Fixtures.regEnvOk ⟨[], []⟩ "schaefer400" none none false
    Fixtures.refAnat
    "derivatives/qsiprep_analyses/sub-01/anat/sub-01_space-T1w_res-anat_desc-_label-WholeBrain_atlas-schaefer400_dseg.nii.gz"
    "derivatives/qsiprep_analyses/sub-01/anat/sub-01_space-T1w_res-anat_desc-_label-GM_atlas-schaefer400_dseg.nii.gz"
    rfl rfl rfl rfl
    (by
      intro s hs
      have hl : listify_sessions Fixtures.regEnvOk.sessions none = ["01"] := rfl
      rw [hl] at hs
      rcases List.mem_singleton.mp hs with rfl
      exact ⟨Fixtures.refDwi01,
        "derivatives/qsiprep_analyses/sub-01/ses-01/dwi/sub-01_ses-01_space-T1w_res-dwi_desc-_label-WholeBrain_atlas-schaefer400_dseg.nii.gz",
        "derivatives/qsiprep_analyses/sub-01/ses-01/dwi/sub-01_ses-01_space-T1w_res-dwi_desc-_label-GM_atlas-schaefer400_dseg.nii.gz",
        rfl, rfl⟩)
    (by decide) (by decide)

end QPA.Reg

namespace QPA.TE

theorem run_single_input_eq (env : Env) (st : St) (inputs : Inputs)
    (tensor_type : String) (out_metrics : Option (List String)) (force : Bool)
    (cfg : TensorTypeCfg) (planned : QPA.Dict String) (warns : List String)
    (hreg : dictGet TENSOR_TYPES tensor_type = some cfg)
    (hplan : build_output_dictionary env.metricsOf inputs.dwi tensor_type out_metrics
      = .ok (planned, warns)) :
    run_single_input env st inputs tensor_type out_metrics force
      = (if ¬ ((dictValues planned).all fun p => st.fs.contains p) = true ∨ force = true then
          match env.wfErr (dictSet (map_kwargs_to_workflow (inputsDict inputs))
              "fit_method" cfg.fit_method) planned with
          | some e => .error e
          | none => .ok (planned, true,
              { fs := st.fs ++ dictValues planned,
                invocations := st.invocations ++ [(tensor_type, planned)] })
        else .ok (planned, false, st)) := by
  simp only [run_single_input, validate_tensor_type, hreg, hplan]

/-- Claim C1: for every inputs dictionary, registered tensor type, requested
metrics list and force flag, `run_single_input` invokes the reconstruction
workflow exactly when force is true or at least one planned output path does
not already exist; when every planned output exists and force is false it
returns the planned output-path dictionary without invoking the workflow;
and invoking the job twice with force false performs the computation at most
once — the second invocation returns paths identical to the first, invokes
nothing and leaves the state unchanged. -/
theorem C1_run_single_input (env : Env) (st : St) (inputs : Inputs)
    (tensor_type : String) (out_metrics : Option (List String)) (force : Bool)
    (cfg : TensorTypeCfg) (planned : QPA.Dict String) (warns : List String)
    (hreg : dictGet TENSOR_TYPES tensor_type = some cfg)
    (hplan : build_output_dictionary env.metricsOf inputs.dwi tensor_type out_metrics
      = .ok (planned, warns)) :
    (∀ outs inv st',
        run_single_input env st inputs tensor_type out_metrics force = .ok (outs, inv, st') →
        outs = planned ∧ (inv = true ↔ (force = true ∨ ∃ p ∈ dictValues planned, p ∉ st.fs)))
  ∧ (∀ e, run_single_input env st inputs tensor_type out_metrics force = .error e →
        (force = true ∨ ∃ p ∈ dictValues planned, p ∉ st.fs))
  ∧ ((∀ p ∈ dictValues planned, p ∈ st.fs) → force = false →
        run_single_input env st inputs tensor_type out_metrics force = .ok (planned, false, st))
  ∧ (∀ outs1 inv1 st1,
        run_single_input env st inputs tensor_type out_metrics false = .ok (outs1, inv1, st1) →
        run_single_input env st1 inputs tensor_type out_metrics false = .ok (outs1, false, st1)) := by
  have hcond : (¬ ((dictValues planned).all fun p => st.fs.contains p) = true)
      ↔ (∃ p ∈ dictValues planned, p ∉ st.fs) := by
    constructor
    · intro h
      by_contra hn
      push_neg at hn
      apply h
      rw [List.all_eq_true]
      intro p hp
      simpa using hn p hp
    · rintro ⟨p, hp, hnp⟩ hall
      rw [List.all_eq_true] at hall
      exact hnp (by simpa using hall p hp)
  have heq := run_single_input_eq env st inputs tensor_type out_metrics force
    cfg planned warns hreg hplan
  have heq0 := run_single_input_eq env st inputs tensor_type out_metrics false
    cfg planned warns hreg hplan
  refine ⟨?_, ?_, ?_, ?_⟩
  · intro outs inv st' h
    rw [heq] at h
    by_cases hC : (¬ ((dictValues planned).all fun p => st.fs.contains p) = true ∨ force = true)
    · rw [if_pos hC] at h
      rcases hw : env.wfErr (dictSet (map_kwargs_to_workflow (inputsDict inputs))
          "fit_method" cfg.fit_method) planned with _ | e
      · rw [hw] at h
        simp only [Except.ok.injEq, Prod.mk.injEq] at h
        obtain ⟨rfl, rfl, rfl⟩ := h
        refine ⟨rfl, iff_of_true rfl ?_⟩
        rcases hC with h' | h'
        · exact Or.inr (hcond.mp h')
        · exact Or.inl h'
      · rw [hw] at h
        simp at h
    · rw [if_neg hC] at h
      simp only [Except.ok.injEq, Prod.mk.injEq] at h
      obtain ⟨rfl, rfl, rfl⟩ := h
      rw [not_or] at hC
      refine ⟨rfl, iff_of_false (by simp) ?_⟩
      rintro (h' | h')
      · exact hC.2 h'
      · exact hC.1 (hcond.mpr h')
  · intro e h
    rw [heq] at h
    by_cases hC : (¬ ((dictValues planned).all fun p => st.fs.contains p) = true ∨ force = true)
    · rcases hC with h' | h'
      · exact Or.inr (hcond.mp h')
      · exact Or.inl h'
    · rw [if_neg hC] at h
      simp at h
  · intro hall hf
    subst hf
    rw [heq0, if_neg]
    rw [not_or]
    refine ⟨not_not_intro ?_, by simp⟩
    rw [List.all_eq_true]
    intro p hp
    simpa using hall p hp
  · intro outs1 inv1 st1 h
    rw [heq0] at h
    by_cases hC : (¬ ((dictValues planned).all fun p => st.fs.contains p) = true ∨ (false : Bool) = true)
    · rw [if_pos hC] at h
      rcases hw : env.wfErr (dictSet (map_kwargs_to_workflow (inputsDict inputs))
          "fit_method" cfg.fit_method) planned with _ | e
      · rw [hw] at h
        simp only [Except.ok.injEq, Prod.mk.injEq] at h
        obtain ⟨rfl, rfl, rfl⟩ := h
        have heq1 := run_single_input_eq env
          { fs := st.fs ++ dictValues planned,
            invocations := st.invocations ++ [(tensor_type, planned)] }
          inputs tensor_type out_metrics false cfg planned warns hreg hplan
        rw [heq1, if_neg]
        rw [not_or]
        refine ⟨not_not_intro ?_, by simp⟩
        rw [List.all_eq_true]
        intro p hp
        simpa using List.mem_append.mpr (Or.inr hp)
      · rw [hw] at h
        simp at h
    · rw [if_neg hC] at h
      simp only [Except.ok.injEq, Prod.mk.injEq] at h
      obtain ⟨rfl, rfl, rfl⟩ := h
      rw [heq0, if_neg hC]
end QPA.TE

namespace QPA.TE

/-- Witness for C1: with the single planned output already on disk and force
false, `run_single_input` returns the planned path without invoking the
workflow and without changing the filesystem. -/
theorem C1_run_single_input_witness :
    run_single_input Fixtures.teEnvOk
      ⟨["sub-01/ses-01/dwi/sub-01_ses-01_acq-dt_space-T1w_res-dwi_desc-fa_dwiref.nii.gz"], []⟩
      Fixtures.inputs0 "diffusion_tensor" (some ["fa"]) false
      = .ok ([("out_fa",
          "sub-01/ses-01/dwi/sub-01_ses-01_acq-dt_space-T1w_res-dwi_desc-fa_dwiref.nii.gz")],
          false,
          ⟨["sub-01/ses-01/dwi/sub-01_ses-01_acq-dt_space-T1w_res-dwi_desc-fa_dwiref.nii.gz"], []⟩) :=
  (C1_run_single_input Fixtures.teEnvOk
      ⟨["sub-01/ses-01/dwi/sub-01_ses-01_acq-dt_space-T1w_res-dwi_desc-fa_dwiref.nii.gz"], []⟩
      Fixtures.inputs0 "diffusion_tensor" (some ["fa"]) false
      ⟨"dt", "WLS"⟩
      [("out_fa",
        "sub-01/ses-01/dwi/sub-01_ses-01_acq-dt_space-T1w_res-dwi_desc-fa_dwiref.nii.gz")]
      [] rfl (by rfl)).2.2.1 (by decide) rfl

theorem runDatasetFrom_append (env : Env)
    (tensor_type out_metrics : Option StrOrList) (force : Bool)
    (l1 l2 : List StrOrList) :
    ∀ (st : St) (acc : QPA.Dict (QPA.Dict (QPA.Dict (List (QPA.Dict String))))),
    runDatasetFrom env (l1 ++ l2) st acc tensor_type out_metrics force
      = (match runDatasetFrom env l1 st acc tensor_type out_metrics force with
        | .error e => .error e
        | .ok (st1, acc1) => runDatasetFrom env l2 st1 acc1 tensor_type out_metrics force) := by
  induction l1 with
  | nil => intro st acc; rfl
  | cons pl rest ih =>
    intro st acc
    rcases h : datasetStep env st pl tensor_type out_metrics force with e | ⟨p, res, st'⟩
    · simp only [List.cons_append, runDatasetFrom, h]
    · simp only [List.cons_append, runDatasetFrom, h]
      exact ih st' (dictSet acc p res)

/-- Claim C2, amended: `run_dataset` (tensor_estimation.py) has no exception
handling: when the subjects before one failing subject all succeed and that
subject's job raises — a missing-required-input error included — the error
propagates out of `run_dataset` and the remaining subjects are never
processed, so no results are produced for them. -/
theorem C2_run_dataset_amended (env : Env) (st : St)
    (tensor_type out_metrics : Option StrOrList) (force : Bool)
    (l1 : List StrOrList) (pk : StrOrList) (l2 : List StrOrList)
    (st1 : St) (acc : QPA.Dict (QPA.Dict (QPA.Dict (List (QPA.Dict String)))))
    (e : Err)
    (hlabels : datasetLabels env none = l1 ++ pk :: l2)
    (hpre : runDatasetFrom env l1 st [] tensor_type out_metrics force = .ok (st1, acc))
    (hfail : datasetStep env st1 pk tensor_type out_metrics force = .error e) :
    run_dataset env st none tensor_type out_metrics force = .error e := by
  have happ := runDatasetFrom_append env tensor_type out_metrics force l1 (pk :: l2) st []
  rw [hpre] at happ
  have hcons : runDatasetFrom env (pk :: l2) st1 acc tensor_type out_metrics force
      = .error e := by
    simp only [runDatasetFrom, hfail]
  show (match runDatasetFrom env (datasetLabels env none) st [] tensor_type out_metrics force with
        | .error e => (.error e : Except Err _)
        | .ok (st', _) => .ok (st', none)) = .error e
  rw [hlabels, happ]
  simp only [hcons]

/-- Counterexample for C2: a two-subject dataset in which subject 01's
reconstruction raises the missing-input error; `run_dataset` propagates the
error instead of continuing, so it produces no results for subject 02 — the
claimed partial-failure semantics do not hold. -/
theorem C2_run_dataset_counterexample :
    Fixtures.teEnvFail.subjects = [("01", some ["01"]), ("02", some ["01"])]
  ∧ run_dataset Fixtures.teEnvFail ⟨[], []⟩ none none none false
      = .error Err.missingInput :=
  ⟨rfl, rfl⟩

/-- Witness for C2 (amended): the amended theorem applied to the concrete
two-subject environment whose first subject fails. -/
theorem C2_run_dataset_amended_witness :
    run_dataset Fixtures.teEnvFail ⟨[], []⟩ none none none false
      = .error Err.missingInput :=
  C2_run_dataset_amended Fixtures.teEnvFail ⟨[], []⟩ none none false
    [] (.inl "01") [.inl "02"] ⟨[], []⟩ [] Err.missingInput rfl rfl rfl

end QPA.TE

namespace QPA.TE

theorem buildOutputStep_fold (metricsOf : String → List String)
    (source : QPA.Dict String) (tensor_type : String) (cfg : TensorTypeCfg)
    (outs : List String) :
    ∀ acc : QPA.Dict String × List String,
    (∀ k, k ∈ dictKeys (outs.foldl (buildOutputStep metricsOf source tensor_type cfg) acc).1
      ↔ k ∈ dictKeys acc.1 ∨ ∃ m ∈ outs, m ∈ metricsOf tensor_type ∧ k = "out_" ++ m)
    ∧ (outs.foldl (buildOutputStep metricsOf source tensor_type cfg) acc).2
      = acc.2 ++ outs.filter (fun m => !decide (m ∈ metricsOf tensor_type)) := by
  induction outs with
  | nil =>
    intro acc
    exact ⟨fun k => by simp, by simp⟩
  | cons m rest ih =>
    intro acc
    by_cases hm : m ∈ metricsOf tensor_type
    · have hstep : buildOutputStep metricsOf source tensor_type cfg acc m
        = (dictSet acc.1 ("out_" ++ m)
            ((Bids.build_relative_path source
              (("acquisition", cfg.acq) :: ("desc", outputDesc m) :: TENSOR_ENTITIES)).getD "None"),
           acc.2) := by
        simp [buildOutputStep, validate_requested_output, hm]
      refine ⟨fun k => ?_, ?_⟩
      · rw [List.foldl_cons, hstep, (ih _).1 k, dictKeys_mem_dictSet]
        constructor
        · rintro ((hk | hk) | ⟨m', hm', hmet, hk⟩)
          · exact Or.inl hk
          · exact Or.inr ⟨m, List.mem_cons_self _ _, hm, hk⟩
          · exact Or.inr ⟨m', List.mem_cons_of_mem _ hm', hmet, hk⟩
        · rintro (hk | ⟨m', hm', hmet, hk⟩)
          · exact Or.inl (Or.inl hk)
          · rcases List.mem_cons.mp hm' with rfl | hm''
            · exact Or.inl (Or.inr hk)
            · exact Or.inr ⟨m', hm'', hmet, hk⟩
      · rw [List.foldl_cons, hstep, (ih _).2]
        simp [List.filter_cons, hm]
    · have hstep : buildOutputStep metricsOf source tensor_type cfg acc m
        = (acc.1, acc.2 ++ [m]) := by
        simp [buildOutputStep, validate_requested_output, hm]
      refine ⟨fun k => ?_, ?_⟩
      · rw [List.foldl_cons, hstep, (ih _).1 k]
        constructor
        · rintro (hk | ⟨m', hm', hmet, hk⟩)
          · exact Or.inl hk
          · exact Or.inr ⟨m', List.mem_cons_of_mem _ hm', hmet, hk⟩
        · rintro (hk | ⟨m', hm', hmet, hk⟩)
          · exact Or.inl hk
          · rcases List.mem_cons.mp hm' with rfl | hm''
            · exact absurd hmet hm
            · exact Or.inr ⟨m', hm'', hmet, hk⟩
      · rw [List.foldl_cons, hstep, (ih _).2]
        simp [List.filter_cons, hm]

/-- Claim C3: for every metrics table, registered tensor type and non-empty
requested metrics list, `build_output_dictionary` returns a dictionary whose
keys are exactly out_<metric> for the requested metrics in the declared
metric set, with one warning per rejected metric while the valid metrics
still produce entries; concretely, tensor type diffusion_tensor with
requested metrics fa and ad yields exactly the keys out_fa and out_ad, whose
paths carry desc-fa / desc-ad segments and the acquisition code dt. -/
theorem C3_build_output_dictionary :
    (∀ (metricsOf : String → List String) (source : QPA.Dict String)
        (tensor_type : String) (cfg : TensorTypeCfg) (requested : List String),
        dictGet TENSOR_TYPES tensor_type = some cfg → requested ≠ [] →
        ∃ target warns,
          build_output_dictionary metricsOf source tensor_type (some requested)
            = .ok (target, warns)
          ∧ (∀ k, k ∈ dictKeys target
              ↔ ∃ m ∈ requested, m ∈ metricsOf tensor_type ∧ k = "out_" ++ m)
          ∧ warns = requested.filter (fun m => !decide (m ∈ metricsOf tensor_type)))
  ∧ (build_output_dictionary METRICS Fixtures.srcDwi "diffusion_tensor" (some ["fa", "ad"])
      = .ok ([("out_fa",
          "sub-01/ses-01/dwi/sub-01_ses-01_acq-dt_space-T1w_res-dwi_desc-fa_dwiref.nii.gz"),
         ("out_ad",
          "sub-01/ses-01/dwi/sub-01_ses-01_acq-dt_space-T1w_res-dwi_desc-ad_dwiref.nii.gz")], [])
    ∧ (∃ a b, "sub-01/ses-01/dwi/sub-01_ses-01_acq-dt_space-T1w_res-dwi_desc-fa_dwiref.nii.gz"
        = a ++ "_desc-fa" ++ b)
    ∧ (∃ a b, "sub-01/ses-01/dwi/sub-01_ses-01_acq-dt_space-T1w_res-dwi_desc-ad_dwiref.nii.gz"
        = a ++ "_desc-ad" ++ b)
    ∧ (∃ a b, "sub-01/ses-01/dwi/sub-01_ses-01_acq-dt_space-T1w_res-dwi_desc-fa_dwiref.nii.gz"
        = a ++ "_acq-dt" ++ b)
    ∧ (∃ a b, "sub-01/ses-01/dwi/sub-01_ses-01_acq-dt_space-T1w_res-dwi_desc-ad_dwiref.nii.gz"
        = a ++ "_acq-dt" ++ b)) := by
  constructor
  · intro metricsOf source tensor_type cfg requested hreg hne
    refine ⟨(List.foldl (buildOutputStep metricsOf source tensor_type cfg) ([], []) requested).1,
            (List.foldl (buildOutputStep metricsOf source tensor_type cfg) ([], []) requested).2,
            ?_, ?_, ?_⟩
    · cases requested with
      | nil => exact absurd rfl hne
      | cons m rest => simp only [build_output_dictionary, hreg, Prod.mk.eta]
    · intro k
      have h := (buildOutputStep_fold metricsOf source tensor_type cfg requested ([], [])).1 k
      simpa [dictKeys] using h
    · have h := (buildOutputStep_fold metricsOf source tensor_type cfg requested ([], [])).2
      simpa using h
  · refine ⟨by rfl, ?_, ?_, ?_, ?_⟩
    · exact ⟨"sub-01/ses-01/dwi/sub-01_ses-01_acq-dt_space-T1w_res-dwi",
             "_dwiref.nii.gz", by decide⟩
    · exact ⟨"sub-01/ses-01/dwi/sub-01_ses-01_acq-dt_space-T1w_res-dwi",
             "_dwiref.nii.gz", by decide⟩
    · exact ⟨"sub-01/ses-01/dwi/sub-01_ses-01",
             "_space-T1w_res-dwi_desc-fa_dwiref.nii.gz", by decide⟩
    · exact ⟨"sub-01/ses-01/dwi/sub-01_ses-01",
             "_space-T1w_res-dwi_desc-ad_dwiref.nii.gz", by decide⟩

/-- Witness for C3: the universal part applied to the spec-modelled metrics
table, with one valid metric (fa) and one invalid metric (mk) requested: the
target keys contain out_fa, exclude out_mk, and mk is warned about. -/
theorem C3_build_output_dictionary_witness :
    ∃ target warns,
      build_output_dictionary METRICS Fixtures.srcDwi "diffusion_tensor" (some ["fa", "mk"])
        = .ok (target, warns)
      ∧ (∀ k, k ∈ dictKeys target
          ↔ ∃ m ∈ ["fa", "mk"], m ∈ METRICS "diffusion_tensor" ∧ k = "out_" ++ m)
      ∧ warns = ["fa", "mk"].filter (fun m => !decide (m ∈ METRICS "diffusion_tensor")) :=
  C3_build_output_dictionary.1 METRICS Fixtures.srcDwi "diffusion_tensor"
    ⟨"dt", "WLS"⟩ ["fa", "mk"] rfl (by decide)

/-- Claim C10: whenever `run_dataset` finishes without an exception, the
value it returns is `none` — the nested per-subject results mapping it
accumulates is never returned to the caller. -/
theorem C10_run_dataset_returns_none (env : Env) (st : St)
    (participant_label tensor_type out_metrics : Option StrOrList) (force : Bool)
    (r : St × Option (QPA.Dict (QPA.Dict (QPA.Dict (List (QPA.Dict String))))))
    (h : run_dataset env st participant_label tensor_type out_metrics force = .ok r) :
    r.2 = none := by
  unfold run_dataset at h
  rcases hrun : runDatasetFrom env (datasetLabels env participant_label) st []
      tensor_type out_metrics force with e | ⟨st', acc⟩
  · rw [hrun] at h
    simp at h
  · rw [hrun] at h
    simp only [Except.ok.injEq] at h
    rw [← h]

/-- Witness for C10: a successful one-subject run whose returned value is
`none`. -/
theorem C10_run_dataset_returns_none_witness :
    ∃ r, run_dataset Fixtures.teEnvOk ⟨[], []⟩ none none none false = .ok r
      ∧ r.2 = none :=
  ⟨_, rfl, C10_run_dataset_returns_none Fixtures.teEnvOk ⟨[], []⟩
    none none none false _ rfl⟩

end QPA.TE
